import Mathlib

/-!
# Academy Dashboard — verification of the spec's claims against the code

Shallow embedding of the Flask application's data layer and operations
(`src/utils.py`, `src/blueprints/{auth,coaches,dashboard,analytics,leaves}.py`).

Modelling conventions:
* SQL tables are Lean lists of record structures; `SELECT`/`DELETE`/`UPDATE`
  become `List.filter` / `List.map`; `SUM` becomes a fold; an SQL inner join
  is modelled with its exact multiplicity semantics (each left row pairs with
  each matching right row).
* Python floats are modelled as rationals (`ℚ`); Python's `round(x, 2)`
  (banker's rounding, round-half-to-even) is `round2`.
* A Python expression that can raise (`float(...)`, division) is modelled in
  `Option`/`Except`; an uncaught exception aborts the request before `commit`,
  so the store is unchanged in that case.
* Dates are `Date` records; the day difference produced both by Python's
  `datetime` subtraction and by SQLite's `julianday(a) - julianday(b)` equals
  the difference of the dates' Rata Die numbers (`toRataDie`), which is the
  standard civil-from-days calendar computation.
-/

namespace Academy

/-- `CALENDAR_MONTHS` from `src/utils.py`. -/
def CALENDAR_MONTHS : List String :=
  ["January", "February", "March", "April",
   "May", "June", "July", "August",
   "September", "October", "November", "December"]

/-- A row of the `centers` table. -/
structure CenterRow where
  id : Nat
  name : String
  deriving Repr, DecidableEq

/-- A row of the `coaches` table. -/
structure CoachRow where
  id : Nat
  center_id : Nat
  name : String
  deriving Repr, DecidableEq

/-- A row of the `monthly_data` table. -/
structure MonthlyRow where
  center_id : Nat
  month : String
  year : Int
  revenue : ℚ
  target : ℚ
  deriving Repr, DecidableEq

/-- A row of the `coach_salaries` table. -/
structure SalaryRow where
  coach_id : Nat
  month : String
  year : Int
  salary : ℚ
  deriving Repr, DecidableEq

/-- A calendar date, as stored in `coach_leaves.from_date` / `to_date`. -/
structure Date where
  year : Int
  month : Nat
  day : Nat
  deriving Repr, DecidableEq

/-- A row of the `coach_leaves` table. -/
structure LeaveRow where
  id : Nat
  coach_id : Nat
  from_date : Date
  to_date : Date
  leave_type : String
  year : Int
  deriving Repr, DecidableEq

/-- The persistent store: the five data tables of `init_db` (`src/app.py`). -/
structure DB where
  centers : List CenterRow
  coaches : List CoachRow
  monthly_data : List MonthlyRow
  coach_salaries : List SalaryRow
  coach_leaves : List LeaveRow
  deriving Repr, DecidableEq

/-! ## Rounding and division -/

/-- Round-half-to-even on rationals: the semantics of Python's builtin
`round` on an exactly-representable value. -/
def roundHalfEven (x : ℚ) : ℤ :=
  let n : ℤ := ⌊x⌋
  let f : ℚ := x - n
  if f < 1/2 then n
  else if 1/2 < f then n + 1
  else if n % 2 = 0 then n else n + 1

/-- Python's `round(x, 2)`. -/
def round2 (x : ℚ) : ℚ := (roundHalfEven (x * 100) : ℚ) / 100

/-- Python's `round(x, 1)`. -/
def round1 (x : ℚ) : ℚ := (roundHalfEven (x * 10) : ℚ) / 10

/-- Python division, which raises `ZeroDivisionError` on a zero divisor:
`none` models the raised error. -/
def pyDiv (a b : ℚ) : Option ℚ := if b = 0 then none else some (a / b)

/-! ## Dates

`calculate_days` in `src/blueprints/leaves.py` computes
`(to_date - from_date).days + 1`; the SQL aggregates use
`julianday(to_date) - julianday(from_date) + 1`.  Both differences equal the
difference of Rata Die day numbers, computed by the standard civil-calendar
algorithm below (floor divisions throughout). -/

/-- Rata Die day number of a Gregorian date (days since 0000-12-31, via the
standard days-from-civil algorithm using floor division). -/
def toRataDie (d : Date) : ℤ :=
  let y : ℤ := if d.month ≤ 2 then d.year - 1 else d.year
  let era : ℤ := Int.fdiv y 400
  let yoe : ℤ := y - era * 400
  let mp : ℤ := Int.emod (d.month + 9) 12
  let doy : ℤ := Int.fdiv (153 * mp + 2) 5 + d.day - 1
  let doe : ℤ := yoe * 365 + Int.fdiv yoe 4 - Int.fdiv yoe 100 + doy
  era * 146097 + doe - 719468 + 719163

/-- `calculate_days` (`src/blueprints/leaves.py`): inclusive day count of a
leave range, `(to_date - from_date).days + 1`. -/
def calculate_days (from_date to_date : Date) : ℤ :=
  toRataDie to_date - toRataDie from_date + 1

/-! ## Target recomputation (`_update_center_targets`, `_calculate_centers_data`) -/

/-- `SELECT SUM(cs.salary) FROM coach_salaries cs JOIN coaches co ON
cs.coach_id = co.id WHERE co.center_id=? AND cs.month=? AND cs.year=?`
(from `_update_center_targets` in `src/blueprints/coaches.py`; the identical
query appears in `_calculate_centers_data` in `src/blueprints/dashboard.py`).
The join is modelled with SQL multiplicity: each salary row contributes once
per matching coach row.  `SUM` of no rows is `NULL`, coalesced to 0 by the
code's `or 0`; the empty Lean sum is 0. -/
def centerSalaryTotal (coaches : List CoachRow) (salaries : List SalaryRow)
    (cid : Nat) (m : String) (y : Int) : ℚ :=
  (salaries.map (fun s =>
    if s.month = m ∧ s.year = y then
      ((coaches.filter (fun c => c.id == s.coach_id && c.center_id == cid)).length : ℚ) * s.salary
    else 0)).sum

/-- `calc_target = round(total_salary / 0.299, 2) if total_salary > 0 else 0`
(both recompute sites). -/
def calcTarget (coaches : List CoachRow) (salaries : List SalaryRow)
    (cid : Nat) (m : String) (y : Int) : ℚ :=
  let total := centerSalaryTotal coaches salaries cid m y
  if 0 < total then round2 (total / (299/1000)) else 0

/-- `SELECT DISTINCT month FROM monthly_data WHERE center_id=? AND year=?`. -/
def existingMonths (md : List MonthlyRow) (cid : Nat) (y : Int) : List String :=
  ((md.filter (fun r => r.center_id == cid && r.year == y)).map (·.month)).dedup

/-- `UPDATE monthly_data SET target=? WHERE center_id=? AND month=? AND year=?`. -/
def setTarget (cid : Nat) (m : String) (y : Int) (t : ℚ) (r : MonthlyRow) : MonthlyRow :=
  if r.center_id = cid ∧ r.month = m ∧ r.year = y then {r with target := t} else r

/-- One iteration of the per-month recompute loop: compute the joined salary
total, derive `calc_target`, and update the month's target only when
`calc_target > 0`. -/
def targetStep (cid : Nat) (y : Int) (d : DB) (m : String) : DB :=
  let ct := calcTarget d.coaches d.coach_salaries cid m y
  if 0 < ct then
    {d with monthly_data := d.monthly_data.map (setTarget cid m y ct)}
  else d

/-- `_update_center_targets(cur, center_id, year)` (`src/blueprints/coaches.py`):
recompute targets for the months that already have a `monthly_data` row for
this center and year. -/
def updateCenterTargets (d : DB) (cid : Nat) (y : Int) : DB :=
  (existingMonths d.monthly_data cid y).foldl (targetStep cid y) d

/-- `SELECT c.* FROM centers c WHERE c.id IN
(SELECT center_id FROM monthly_data WHERE month=? AND year=?)`. -/
def centersInMonth (d : DB) (m : String) (y : Int) : List CenterRow :=
  d.centers.filter (fun c =>
    d.monthly_data.any (fun r => r.center_id == c.id && r.month == m && r.year == y))

/-- The write-back half of `_calculate_centers_data`
(`src/blueprints/dashboard.py`): for each center visible in the requested
month, run the per-month target recompute loop, which is statement-for-
statement the loop of `_update_center_targets` (its extra `md_row` truthiness
check is vacuous because `m` ranges over months that have a row). -/
def centersDataRecompute (d : DB) (m : String) (y : Int) : DB :=
  (centersInMonth d m y).foldl (fun acc c => updateCenterTargets acc c.id y) d

/-! ## Dashboard display entries and monthly KPIs -/

/-- `SELECT revenue, target FROM monthly_data WHERE center_id=? AND month=?
AND year=?` followed by `fetchone` (first matching row or none). -/
def monthlyRowFor (d : DB) (cid : Nat) (m : String) (y : Int) : Option MonthlyRow :=
  (d.monthly_data.filter (fun r => r.center_id == cid && r.month == m && r.year == y)).head?

/-- One element of the `centers_data` list built by `_calculate_centers_data`. -/
structure CenterEntry where
  id : Nat
  name : String
  revenue : ℚ
  target : ℚ
  achievement : ℚ
  salary_percent : ℚ
  deriving Repr, DecidableEq

/-- The display half of `_calculate_centers_data` for one center: revenue and
target of the month's row (0 if absent), joined salary total, and the two
guarded percentages.  Division is `pyDiv` in `Option` so that a would-be
`ZeroDivisionError` is visible as `none`. -/
def centerEntry (d : DB) (c : CenterRow) (m : String) (y : Int) : Option CenterEntry := do
  let row := monthlyRowFor d c.id m y
  let revenue := match row with | some r => r.revenue | none => 0
  let target := match row with | some r => r.target | none => 0
  let salary := centerSalaryTotal d.coaches d.coach_salaries c.id m y
  let achievement ← if 0 < target then (pyDiv revenue target).map (· * 100) else pure 0
  let salary_percent ← if 0 < revenue then (pyDiv salary revenue).map (· * 100) else pure 0
  pure { id := c.id, name := c.name, revenue := revenue, target := target,
         achievement := round1 achievement, salary_percent := round1 salary_percent }

/-- `SUM(revenue)` over `monthly_data` rows of one month/year (the
`GROUP BY month` query of `_calculate_monthly_kpis`, looked up per month with
default 0; `or 0` coalesces `NULL`). -/
def monthRevenue (d : DB) (y : Int) (m : String) : ℚ :=
  ((d.monthly_data.filter (fun r => r.year == y && r.month == m)).map (·.revenue)).sum

/-- `SUM(target)` over `monthly_data` rows of one month/year. -/
def monthTarget (d : DB) (y : Int) (m : String) : ℚ :=
  ((d.monthly_data.filter (fun r => r.year == y && r.month == m)).map (·.target)).sum

/-- `SUM(salary)` over `coach_salaries` rows of one month/year —
`_calculate_monthly_kpis` does not join `coaches` here. -/
def monthSalary (d : DB) (y : Int) (m : String) : ℚ :=
  ((d.coach_salaries.filter (fun s => s.year == y && s.month == m)).map (·.salary)).sum

/-- One element of the `monthly_kpis` list. -/
structure KpiEntry where
  month : String
  total_revenue : ℚ
  total_target : ℚ
  achieved_percent : ℚ
  salary_percent : ℚ
  deriving Repr, DecidableEq

/-- One month's entry of `_calculate_monthly_kpis`
(`src/blueprints/dashboard.py`):
`achieved_percent = revenue/target*100 if target > 0 else 0`,
`salary_percent = salary/revenue*100 if revenue > 0 else 0`. -/
def kpiEntry (d : DB) (y : Int) (m : String) : Option KpiEntry := do
  let tr := monthRevenue d y m
  let tt := monthTarget d y m
  let ts := monthSalary d y m
  let ap ← if 0 < tt then (pyDiv tr tt).map (· * 100) else pure 0
  let sp ← if 0 < tr then (pyDiv ts tr).map (· * 100) else pure 0
  pure { month := m, total_revenue := round2 tr, total_target := round2 tt,
         achieved_percent := round1 ap, salary_percent := round1 sp }

/-- `_calculate_monthly_kpis`: the twelve calendar months in order. -/
def monthlyKpis (d : DB) (y : Int) : Option (List KpiEntry) :=
  CALENDAR_MONTHS.mapM (kpiEntry d y)

/-! ## Analytics (`src/blueprints/analytics.py`)

The route runs one of two SQL branches depending on whether the selected
center is `0` ("all centers"); the two branches are merged here into a single
filter `cf == 0 || center_id == cf`, which is exactly the union of the two
`WHERE` clauses. -/

/-- Per-month revenue sum with the center filter. -/
def analyticsRevenue (d : DB) (y : Int) (cf : Nat) (m : String) : ℚ :=
  ((d.monthly_data.filter (fun r =>
    r.year == y && r.month == m && (cf == 0 || r.center_id == cf))).map (·.revenue)).sum

/-- Per-month target sum with the center filter. -/
def analyticsTarget (d : DB) (y : Int) (cf : Nat) (m : String) : ℚ :=
  ((d.monthly_data.filter (fun r =>
    r.year == y && r.month == m && (cf == 0 || r.center_id == cf))).map (·.target)).sum

/-- Per-month salary sum: `coach_salaries` joined to `coaches` (multiplicity-
faithful), filtered by center when `cf ≠ 0`. -/
def analyticsSalary (d : DB) (y : Int) (cf : Nat) (m : String) : ℚ :=
  (d.coach_salaries.map (fun s =>
    if s.year = y ∧ s.month = m then
      ((d.coaches.filter (fun c =>
        c.id == s.coach_id && (cf == 0 || c.center_id == cf))).length : ℚ) * s.salary
    else 0)).sum

/-- One row of `analytics_data`. -/
structure AnalyticsEntry where
  month : String
  revenue : ℚ
  target : ℚ
  achieved : ℚ
  salary_ratio : ℚ
  profit : ℚ
  deriving Repr, DecidableEq

/-- One month's entry of the `analytics` route:
`achieved = round(revenue/target*100, 1) if target > 0 else 0`,
`salary_ratio = round(salary/revenue*100, 1) if revenue > 0 else 0`,
`profit = revenue - salary`. -/
def analyticsEntry (d : DB) (y : Int) (cf : Nat) (m : String) : Option AnalyticsEntry := do
  let revenue := analyticsRevenue d y cf m
  let target := analyticsTarget d y cf m
  let salary := analyticsSalary d y cf m
  let achieved ← if 0 < target then (pyDiv revenue target).map (fun q => round1 (q * 100)) else pure 0
  let sr ← if 0 < revenue then (pyDiv salary revenue).map (fun q => round1 (q * 100)) else pure 0
  pure { month := m, revenue := revenue, target := target,
         achieved := achieved, salary_ratio := sr, profit := revenue - salary }

/-- One step of `_calculate_growth`: growth from the previous month's revenue,
`round(((cur - prev) / prev) * 100, 1) if prev > 0 else 0` (and 0 for the
first month, which this function also covers via `prev = 0`). -/
def growthOf (prev cur : ℚ) : Option ℚ :=
  if 0 < prev then (pyDiv (cur - prev) prev).map (fun q => round1 (q * 100)) else pure 0

/-- `avg_achievement` over the selected months:
`round(selected_revenue/selected_target*100, 1) if selected_target > 0 else 0`. -/
def avgAchievement (selRevenue selTarget : ℚ) : Option ℚ :=
  if 0 < selTarget then (pyDiv selRevenue selTarget).map (fun q => round1 (q * 100)) else pure 0

/-- `avg_revenue` / `avg_target` over the selected months:
`round(total/count, 2) if count > 0 else 0`. -/
def avgOverSelected (total : ℚ) (count : Nat) : Option ℚ :=
  if 0 < count then (pyDiv total (count : ℚ)).map round2 else pure 0

/-! ## Auth gate (`src/utils.py`, `src/blueprints/auth.py`) -/

/-- `MAX_LOGIN_ATTEMPTS` (`src/utils.py`). -/
def MAX_LOGIN_ATTEMPTS : Nat := 5

/-- `LOCKOUT_TIME` in seconds (`src/utils.py`). -/
def LOCKOUT_TIME : ℚ := 300

/-- The in-memory `login_attempts` dict, keyed by client IP; each entry is
`(attempts, lockout_time)` with `lockout_time = None` or a timestamp.
Timestamps are `datetime.now().timestamp() + 300 > 0`, so a stored lockout
time is always truthy in the Python `if lockout_time` tests. -/
def AttemptMap := String → Option (Nat × Option ℚ)

/-- Dict entry assignment (`login_attempts[ip] = v`; `none` for `del`). -/
def AttemptMap.set (st : AttemptMap) (ip : String) (v : Option (Nat × Option ℚ)) : AttemptMap :=
  fun k => if k = ip then v else st k

/-- `is_locked_out(ip)` (`src/utils.py`): locked while `now < lockout_time`;
a passed lockout resets the entry to `(0, None)`.  Returns the boolean and
the possibly-mutated dict. -/
def is_locked_out (now : ℚ) (st : AttemptMap) (ip : String) : Bool × AttemptMap :=
  match st ip with
  | none => (false, st)
  | some (_, none) => (false, st)
  | some (_, some t) =>
    if now < t then (true, st)
    else (false, st.set ip (some (0, none)))

/-- `record_failed_attempt(ip)` (`src/utils.py`). -/
def record_failed_attempt (now : ℚ) (st : AttemptMap) (ip : String) : AttemptMap :=
  let attempts := (match st ip with | some (a, _) => a | none => 0) + 1
  if MAX_LOGIN_ATTEMPTS ≤ attempts then
    st.set ip (some (attempts, some (now + LOCKOUT_TIME)))
  else
    st.set ip (some (attempts, none))

/-- `clear_attempts(ip)` (`src/utils.py`). -/
def clear_attempts (st : AttemptMap) (ip : String) : AttemptMap := st.set ip none

/-- Outcome of one POST to `login` for a request's submitted credentials.
The user lookup plus `check_password_hash` (an opaque external primitive) is
abstracted to whether the pair verifies. -/
inductive Cred where
  /-- username or password empty after sanitization -/
  | missing
  /-- user row found and the password hash verifies -/
  | good
  /-- no such user, or the hash check fails -/
  | bad
  deriving Repr, DecidableEq

/-- The rendered outcome of the `login` POST branch. -/
inductive LoginResult where
  | lockedOut
  | missingFields
  | success
  | invalid
  deriving Repr, DecidableEq

/-- The `login` POST handler (`src/blueprints/auth.py`) for a
not-yet-authenticated session: lockout check first, then the empty-field
check (which does not record a failed attempt), then the credential check;
success clears the IP's attempts, failure records one. -/
def login (now : ℚ) (cred : Cred) (st : AttemptMap) (ip : String) :
    LoginResult × AttemptMap :=
  let p := is_locked_out now st ip
  if p.1 then (.lockedOut, p.2)
  else match cred with
    | .missing => (.missingFields, p.2)
    | .good => (.success, clear_attempts p.2 ip)
    | .bad => (.invalid, record_failed_attempt now p.2 ip)

/-! ## Record-manager mutations -/

/-- A raw numeric form field, as Python's `float(...)` sees it: a parseable
number, a malformed string (on which `float` raises `ValueError`), or an
absent/empty field. -/
inductive RawNum where
  | num (q : ℚ)
  | malformed
  | absent
  deriving Repr, DecidableEq

/-- `float(form.get("salary") or 0)`: an absent or empty field is falsy, so
`float(0) = 0`; a malformed string raises (`none`). -/
def parseSalaryField : RawNum → Option ℚ
  | .num q => some q
  | .malformed => none
  | .absent => some 0

/-- `sanitize_number(value, default)` (`src/utils.py`): safe conversion that
returns `default` on `None`/`""` and on any conversion error. -/
def sanitize_number (v : RawNum) (default : ℚ) : ℚ :=
  match v with
  | .num q => q
  | .malformed => default
  | .absent => default

/-- `_update_salary` (`src/blueprints/coaches.py`): parse the salary field
with a bare `float(...)`, upsert the `(coach_id, month, year)` row of
`coach_salaries`, then recompute the coach's center's targets.  A malformed
salary string raises `ValueError` (`Except.error ()`); the exception
propagates out of the request before `conn.commit()`, so the store is
unchanged in that case.  If the coach id matches no `coaches` row, the
`fetchone` is `None` and the target recompute is skipped. -/
def update_salary (d : DB) (coach_id : Nat) (salary_month : String)
    (salary_year : Int) (salaryField : RawNum) : Except Unit DB :=
  match parseSalaryField salaryField with
  | none => .error ()
  | some salary =>
    let hasRow := d.coach_salaries.any (fun s =>
      s.coach_id == coach_id && s.month == salary_month && s.year == salary_year)
    let d1 : DB :=
      if hasRow then
        {d with coach_salaries := d.coach_salaries.map (fun s =>
          if s.coach_id = coach_id ∧ s.month = salary_month ∧ s.year = salary_year
          then {s with salary := salary} else s)}
      else
        {d with coach_salaries :=
          d.coach_salaries ++ [⟨coach_id, salary_month, salary_year, salary⟩]}
    match (d1.coaches.filter (fun c => c.id == coach_id)).head? with
    | some coach => .ok (updateCenterTargets d1 coach.center_id salary_year)
    | none => .ok d1

/-- One center's save step inside the `dashboard` POST handler
(`src/blueprints/dashboard.py`): `float(raw)` on a present non-empty field
(raises on malformed input), absent/empty fields keep the existing values;
then `UPDATE monthly_data SET revenue=?, target=? WHERE center_id=? AND
month=? AND year=?`. -/
def dashboard_save_center (d : DB) (cid : Nat) (m : String) (y : Int)
    (revenueField targetField : RawNum) : Except Unit DB :=
  let existing := monthlyRowFor d cid m y
  let old_revenue := match existing with | some r => r.revenue | none => 0
  let old_target := match existing with | some r => r.target | none => 0
  match (match revenueField with
         | .num q => some q | .malformed => none | .absent => some old_revenue) with
  | none => .error ()
  | some revenue =>
    match (match targetField with
           | .num q => some q | .malformed => none | .absent => some old_target) with
    | none => .error ()
    | some target =>
      .ok {d with monthly_data := d.monthly_data.map (fun r =>
        if r.center_id = cid ∧ r.month = m ∧ r.year = y
        then {r with revenue := revenue, target := target} else r)}

/-- `delete_coach` (`src/blueprints/coaches.py`): delete the coach's salary
rows, then the coach row. -/
def delete_coach (d : DB) (coach_id : Nat) : DB :=
  { d with
    coach_salaries := d.coach_salaries.filter (fun s => !(s.coach_id == coach_id)),
    coaches := d.coaches.filter (fun c => !(c.id == coach_id)) }

/-- `delete_center` (`src/blueprints/dashboard.py`): the four `DELETE`
statements in source order — the salary delete's subselect
`coach_id IN (SELECT id FROM coaches WHERE center_id=?)` runs while the
coaches rows still exist. -/
def delete_center (d : DB) (center_id : Nat) : DB :=
  let d1 := {d with monthly_data :=
    d.monthly_data.filter (fun r => !(r.center_id == center_id))}
  let d2 := {d1 with coach_salaries := d1.coach_salaries.filter (fun s =>
    !(d1.coaches.any (fun c => c.id == s.coach_id && c.center_id == center_id)))}
  let d3 := {d2 with coaches :=
    d2.coaches.filter (fun c => !(c.center_id == center_id))}
  {d3 with centers := d3.centers.filter (fun c => !(c.id == center_id))}

/-- `remove_center_month` (`src/blueprints/dashboard.py`): delete the one
month/year `monthly_data` row of the center, then that month/year's
`coach_salaries` rows whose coach belongs to the center. -/
def remove_center_month (d : DB) (center_id : Nat) (m : String) (y : Int) : DB :=
  let d1 := {d with monthly_data := d.monthly_data.filter (fun r =>
    !(r.center_id == center_id && r.month == m && r.year == y))}
  {d1 with coach_salaries := d1.coach_salaries.filter (fun s =>
    !(d1.coaches.any (fun c => c.id == s.coach_id && c.center_id == center_id)
      && s.month == m && s.year == y))}

/-! ## Leave aggregation (`src/blueprints/leaves.py`)

The SQL aggregates use `julianday(to_date) - julianday(from_date) + 1`, the
same inclusive day count as `calculate_days` (a Julian Day number differs
from a Rata Die number by a fixed offset, so date differences agree). -/

/-- Leave rows of one coach for one year (the `LEFT JOIN ... GROUP BY c.id`
grouping of the per-coach `leave_stats` query). -/
def leavesOf (d : DB) (coach_id : Nat) (y : Int) : List LeaveRow :=
  d.coach_leaves.filter (fun l => l.coach_id == coach_id && l.year == y)

/-- `SUM(CASE WHEN p THEN julianday(to_date)-julianday(from_date)+1 ELSE 0 END)`. -/
def sumDaysIf (ls : List LeaveRow) (p : LeaveRow → Bool) : ℤ :=
  (ls.map (fun l => if p l then calculate_days l.from_date l.to_date else 0)).sum

/-- Per-coach `lop_days`: `leave_type = 'Unpaid'`. -/
def lop_days (d : DB) (cid : Nat) (y : Int) : ℤ :=
  sumDaysIf (leavesOf d cid y) (fun l => l.leave_type == "Unpaid")

/-- Per-coach `approved_days`: `leave_type NOT IN ('Unpaid','Week Off','OT')`. -/
def approved_days (d : DB) (cid : Nat) (y : Int) : ℤ :=
  sumDaysIf (leavesOf d cid y) (fun l =>
    !(l.leave_type == "Unpaid" || l.leave_type == "Week Off" || l.leave_type == "OT"))

/-- Per-coach `total_days`: `leave_type NOT IN ('Week Off','OT')`. -/
def total_days (d : DB) (cid : Nat) (y : Int) : ℤ :=
  sumDaysIf (leavesOf d cid y) (fun l =>
    !(l.leave_type == "Week Off" || l.leave_type == "OT"))

/-- Per-coach `weekoff_days`: `leave_type = 'Week Off'`. -/
def weekoff_days (d : DB) (cid : Nat) (y : Int) : ℤ :=
  sumDaysIf (leavesOf d cid y) (fun l => l.leave_type == "Week Off")

/-- Per-coach `ot_days`: `leave_type = 'OT'`. -/
def ot_days (d : DB) (cid : Nat) (y : Int) : ℤ :=
  sumDaysIf (leavesOf d cid y) (fun l => l.leave_type == "OT")

/-- All leave rows of one year (the year-wide totals query, lines 141–149). -/
def yearLeaves (d : DB) (y : Int) : List LeaveRow :=
  d.coach_leaves.filter (fun l => l.year == y)

/-- Year-wide `total_days`: `leave_type NOT IN ('Week Off','OT')`. -/
def year_total_days (d : DB) (y : Int) : ℤ :=
  sumDaysIf (yearLeaves d y) (fun l =>
    !(l.leave_type == "Week Off" || l.leave_type == "OT"))

/-- Year-wide `lop_days`: `leave_type = 'Unpaid'`. -/
def year_lop_days (d : DB) (y : Int) : ℤ :=
  sumDaysIf (yearLeaves d y) (fun l => l.leave_type == "Unpaid")

/-- Year-wide `weekoff_days`. -/
def year_weekoff_days (d : DB) (y : Int) : ℤ :=
  sumDaysIf (yearLeaves d y) (fun l => l.leave_type == "Week Off")

/-- Year-wide `ot_days`. -/
def year_ot_days (d : DB) (y : Int) : ℤ :=
  sumDaysIf (yearLeaves d y) (fun l => l.leave_type == "OT")

/-- A run of consecutive failed login POSTs from one IP at the given times:
each request goes through the full `login` handler with wrong credentials. -/
def failedRun (ts : List ℚ) (st : AttemptMap) (ip : String) : AttemptMap :=
  ts.foldl (fun s t => (login t .bad s ip).2) st

/-- The per-row effect of the salary-path target recompute on `monthly_data`:
a row of the given center and year whose computed `calc_target` is positive
gets that target; every other row (and every other field) is unchanged. -/
def recomputedRow (co : List CoachRow) (sa : List SalaryRow) (cid : Nat) (y : Int)
    (r : MonthlyRow) : MonthlyRow :=
  if r.center_id = cid ∧ r.year = y ∧ 0 < calcTarget co sa cid r.month y
  then {r with target := calcTarget co sa cid r.month y} else r

/-- The per-row effect of the recompute restricted to a set of months
(intermediate state of the per-month loop). -/
def monthMarkedRow (co : List CoachRow) (sa : List SalaryRow) (cid : Nat) (y : Int)
    (ms : List String) (r : MonthlyRow) : MonthlyRow :=
  if r.center_id = cid ∧ r.year = y ∧ r.month ∈ ms ∧ 0 < calcTarget co sa cid r.month y
  then {r with target := calcTarget co sa cid r.month y} else r

/-- The per-row effect of the recompute over a set of centers (intermediate
state of the dashboard read-path loop). -/
def centersMarkedRow (co : List CoachRow) (sa : List SalaryRow) (y : Int)
    (cs : List CenterRow) (r : MonthlyRow) : MonthlyRow :=
  if (∃ c ∈ cs, c.id = r.center_id) ∧ r.year = y ∧
      0 < calcTarget co sa r.center_id r.month y
  then {r with target := calcTarget co sa r.center_id r.month y} else r

/-- The per-row effect of the dashboard read path `_calculate_centers_data`:
rows of centers visible in the displayed month/year are recomputed for every
month of the display year. -/
def recomputedRowAll (d : DB) (m : String) (y : Int) (r : MonthlyRow) : MonthlyRow :=
  centersMarkedRow d.coaches d.coach_salaries y (centersInMonth d m y) r

/-- A small concrete store: one center (id 1) with a March 2026 row whose
target is 500, one coach (id 1) of that center, and one `coach_salaries` row
for that coach and month with salary 0. -/
def cexDB : DB :=
  ⟨[⟨1, "Center 1"⟩], [⟨1, 1, "A"⟩], [⟨1, "March", 2026, 0, 500⟩],
   [⟨1, "March", 2026, 0⟩], []⟩

/-- A concrete store with two centers, their coaches, monthly rows and
salary rows. -/
def twoCenterDB : DB :=
  ⟨[⟨1, "C1"⟩, ⟨2, "C2"⟩], [⟨1, 1, "A"⟩, ⟨2, 2, "B"⟩],
   [⟨1, "March", 2026, 10, 20⟩, ⟨2, "March", 2026, 30, 40⟩],
   [⟨1, "March", 2026, 5⟩, ⟨2, "March", 2026, 6⟩], []⟩

/-- A concrete store with one center, one coach and one leave row of that
coach. -/
def leaveDB : DB :=
  ⟨[⟨1, "Center 1"⟩], [⟨1, 1, "A"⟩], [], [],
   [⟨1, 1, ⟨2026, 1, 10⟩, ⟨2026, 1, 12⟩, "Casual", 2026⟩]⟩

/-! # Theorems -/

/-- **C8.** For every pair of dates with `to_date ≥ from_date` the leave day
count equals `(to_date - from_date).days + 1`, inclusive of both endpoints:
a same-day range counts exactly 1, any five-day inclusive span counts exactly
5, and the concrete checks exercise the real calendar arithmetic across month,
year and leap-February boundaries. -/
theorem c8_inclusive_day_count :
    (∀ f t : Date, toRataDie f ≤ toRataDie t →
      calculate_days f t = (toRataDie t - toRataDie f) + 1) ∧
    (∀ f : Date, calculate_days f f = 1) ∧
    (∀ f t : Date, toRataDie t = toRataDie f + 4 → calculate_days f t = 5) ∧
    calculate_days ⟨2026, 1, 10⟩ ⟨2026, 1, 14⟩ = 5 ∧
    calculate_days ⟨2026, 2, 27⟩ ⟨2026, 3, 3⟩ = 5 ∧
    calculate_days ⟨2024, 2, 27⟩ ⟨2024, 3, 2⟩ = 5 ∧
    calculate_days ⟨2026, 1, 10⟩ ⟨2026, 1, 12⟩ = 3 := by
  refine ⟨fun f t _ => rfl, fun f => by simp [calculate_days],
    fun f t h => by simp [calculate_days, h], by decide, by decide, by decide, by decide⟩

/-- Witness for C8 at concrete dates (including a year-boundary 5-day span). -/
theorem c8_witness :
    toRataDie ⟨2026, 1, 10⟩ ≤ toRataDie ⟨2026, 1, 12⟩ ∧
    calculate_days ⟨2026, 1, 10⟩ ⟨2026, 1, 12⟩
      = toRataDie ⟨2026, 1, 12⟩ - toRataDie ⟨2026, 1, 10⟩ + 1 ∧
    calculate_days ⟨2026, 3, 5⟩ ⟨2026, 3, 5⟩ = 1 ∧
    calculate_days ⟨2025, 12, 30⟩ ⟨2026, 1, 3⟩ = 5 :=
  ⟨by decide, c8_inclusive_day_count.1 _ _ (by decide),
   c8_inclusive_day_count.2.1 _, c8_inclusive_day_count.2.2.1 _ _ (by decide)⟩

/-- Prepending one leave row to a filtered sum splits off its contribution. -/
theorem sumDaysIf_cons (r : LeaveRow) (ls : List LeaveRow) (p : LeaveRow → Bool) :
    sumDaysIf (r :: ls) p =
      (if p r then calculate_days r.from_date r.to_date else 0) + sumDaysIf ls p := by
  simp [sumDaysIf]

/-- **C9.** A "Week Off" or "OT" leave contributes 0 to the per-coach and
year-wide `total_days` and to the per-coach `approved_days`, while
contributing its full inclusive day count to `weekoff_days` / `ot_days`; an
"Unpaid" leave counts in `lop_days` and `total_days` but not in
`approved_days`. -/
theorem c9_leave_type_aggregation (d : DB) (r : LeaveRow) (cid : Nat) (y : Int)
    (hc : r.coach_id = cid) (hy : r.year = y) :
    (r.leave_type = "Week Off" →
      total_days {d with coach_leaves := r :: d.coach_leaves} cid y = total_days d cid y ∧
      approved_days {d with coach_leaves := r :: d.coach_leaves} cid y = approved_days d cid y ∧
      year_total_days {d with coach_leaves := r :: d.coach_leaves} y = year_total_days d y ∧
      weekoff_days {d with coach_leaves := r :: d.coach_leaves} cid y
        = weekoff_days d cid y + calculate_days r.from_date r.to_date ∧
      year_weekoff_days {d with coach_leaves := r :: d.coach_leaves} y
        = year_weekoff_days d y + calculate_days r.from_date r.to_date) ∧
    (r.leave_type = "OT" →
      total_days {d with coach_leaves := r :: d.coach_leaves} cid y = total_days d cid y ∧
      approved_days {d with coach_leaves := r :: d.coach_leaves} cid y = approved_days d cid y ∧
      year_total_days {d with coach_leaves := r :: d.coach_leaves} y = year_total_days d y ∧
      ot_days {d with coach_leaves := r :: d.coach_leaves} cid y
        = ot_days d cid y + calculate_days r.from_date r.to_date ∧
      year_ot_days {d with coach_leaves := r :: d.coach_leaves} y
        = year_ot_days d y + calculate_days r.from_date r.to_date) ∧
    (r.leave_type = "Unpaid" →
      lop_days {d with coach_leaves := r :: d.coach_leaves} cid y
        = lop_days d cid y + calculate_days r.from_date r.to_date ∧
      total_days {d with coach_leaves := r :: d.coach_leaves} cid y
        = total_days d cid y + calculate_days r.from_date r.to_date ∧
      approved_days {d with coach_leaves := r :: d.coach_leaves} cid y = approved_days d cid y ∧
      year_lop_days {d with coach_leaves := r :: d.coach_leaves} y
        = year_lop_days d y + calculate_days r.from_date r.to_date ∧
      year_total_days {d with coach_leaves := r :: d.coach_leaves} y
        = year_total_days d y + calculate_days r.from_date r.to_date) := by
  subst hc hy
  refine ⟨fun ht => ?_, fun ht => ?_, fun ht => ?_⟩ <;>
    simp [total_days, approved_days, lop_days, weekoff_days, ot_days,
      year_total_days, year_lop_days, year_weekoff_days, year_ot_days,
      leavesOf, yearLeaves, sumDaysIf, List.filter_cons, ht] <;>
    omega

/-- Witness for C9: a three-day "Week Off" leave (2026-01-10 … 2026-01-12)
for coach 1 adds 0 to `total_days` and 3 to `weekoff_days`. -/
theorem c9_witness :
    total_days ⟨[], [], [], [], [⟨1, 1, ⟨2026, 1, 10⟩, ⟨2026, 1, 12⟩, "Week Off", 2026⟩]⟩ 1 2026
      = total_days ⟨[], [], [], [], []⟩ 1 2026 ∧
    weekoff_days ⟨[], [], [], [], [⟨1, 1, ⟨2026, 1, 10⟩, ⟨2026, 1, 12⟩, "Week Off", 2026⟩]⟩ 1 2026
      = weekoff_days ⟨[], [], [], [], []⟩ 1 2026 + 3 := by
  have h := (c9_leave_type_aggregation ⟨[], [], [], [], []⟩
    ⟨1, 1, ⟨2026, 1, 10⟩, ⟨2026, 1, 12⟩, "Week Off", 2026⟩ 1 2026 rfl rfl).1 rfl
  exact ⟨h.1, by rw [h.2.2.2.1]; decide⟩

/-- A guarded percentage `if 0 < b then f (a / b) else 0`, with the division
in `Option` to expose a would-be `ZeroDivisionError`: it always produces a
value, and the value is 0 when the divisor is 0. -/
theorem guardDiv_spec (a b : ℚ) (f : ℚ → ℚ) :
    ∃ v, (if 0 < b then (pyDiv a b).map f else (pure 0 : Option ℚ)) = some v ∧
      (b = 0 → v = 0) ∧ (0 < b → v = f (a / b)) := by
  by_cases h : 0 < b
  · exact ⟨f (a / b), by simp [h, pyDiv, ne_of_gt h],
      fun h0 => absurd h0 (ne_of_gt h), fun _ => rfl⟩
  · exact ⟨0, by simp [h], fun _ => rfl, fun h' => absurd h' h⟩

/-- `mapM` over `Option` succeeds when every element does, preserving length. -/
theorem mapM_option_of_isSome {α β : Type} (f : α → Option β) :
    ∀ l : List α, (∀ a ∈ l, (f a).isSome = true) →
      ∃ r, l.mapM f = some r ∧ r.length = l.length := by
  intro l
  induction l with
  | nil => exact fun _ => ⟨[], rfl, rfl⟩
  | cons a as ih =>
    intro h
    obtain ⟨b, hb⟩ := Option.isSome_iff_exists.mp (h a (by simp))
    obtain ⟨r, hr, hlen⟩ := ih fun x hx => h x (by simp [hx])
    exact ⟨b :: r, by rw [List.mapM_cons, hb, hr]; rfl, by simp [hlen]⟩

/-- `round(0, 1) = 0`. -/
theorem round1_zero : round1 0 = 0 := by
  norm_num [round1, roundHalfEven]

/-- **C3.** Every division in the KPI, center-snapshot and analytics
computations is guarded: the twelve-month KPI series always computes (no
`ZeroDivisionError`, visible as the `Option` results being `some`), a month
with total target 0 reports `achieved_percent = 0`, a month with total
revenue 0 reports `salary_percent = 0`, and the same holds for the analytics
entries, the per-center snapshot entries, growth, and the selected-month
averages. -/
theorem c3_division_guards (d : DB) (y : Int) (m : String) (c : CenterRow)
    (cf : Nat) (prev cur selRev selTgt tot : ℚ) (n : Nat) :
    (kpiEntry d y m).isSome = true ∧
    (monthTarget d y m = 0 → (kpiEntry d y m).map KpiEntry.achieved_percent = some 0) ∧
    (monthRevenue d y m = 0 → (kpiEntry d y m).map KpiEntry.salary_percent = some 0) ∧
    (∃ l, monthlyKpis d y = some l ∧ l.length = 12) ∧
    (centerEntry d c m y).isSome = true ∧
    (analyticsEntry d y cf m).isSome = true ∧
    (analyticsTarget d y cf m = 0 →
      (analyticsEntry d y cf m).map AnalyticsEntry.achieved = some 0) ∧
    (analyticsRevenue d y cf m = 0 →
      (analyticsEntry d y cf m).map AnalyticsEntry.salary_ratio = some 0) ∧
    (growthOf prev cur).isSome = true ∧
    (avgAchievement selRev selTgt).isSome = true ∧
    (avgOverSelected tot n).isSome = true := by
  have hkpi : ∀ (y' : Int) (m' : String), (kpiEntry d y' m').isSome = true := by
    intro y' m'
    by_cases h1 : 0 < monthTarget d y' m'
    · by_cases h2 : 0 < monthRevenue d y' m'
      · simp [kpiEntry, h1, h2, pyDiv, ne_of_gt h1, ne_of_gt h2]
      · simp [kpiEntry, h1, h2, pyDiv, ne_of_gt h1]
    · by_cases h2 : 0 < monthRevenue d y' m'
      · simp [kpiEntry, h1, h2, pyDiv, ne_of_gt h2]
      · simp [kpiEntry, h1, h2]
  refine ⟨hkpi y m, fun h0 => ?_, fun h0 => ?_, mapM_option_of_isSome _ CALENDAR_MONTHS
    (fun m' _ => hkpi y m'), ?_, ?_, fun h0 => ?_, fun h0 => ?_, ?_, ?_, ?_⟩
  · have h1 : ¬ 0 < monthTarget d y m := by simp [h0]
    by_cases h2 : 0 < monthRevenue d y m
    · simp [kpiEntry, h1, h2, pyDiv, ne_of_gt h2, round1_zero]
    · simp [kpiEntry, h1, h2, round1_zero]
  · have h2 : ¬ 0 < monthRevenue d y m := by simp [h0]
    by_cases h1 : 0 < monthTarget d y m
    · simp [kpiEntry, h1, h2, pyDiv, ne_of_gt h1, round1_zero]
    · simp [kpiEntry, h1, h2, round1_zero]
  · by_cases h1 : 0 < (match monthlyRowFor d c.id m y with | some r => r.target | none => 0)
    · by_cases h2 : 0 < (match monthlyRowFor d c.id m y with | some r => r.revenue | none => 0)
      · simp [centerEntry, h1, h2, pyDiv, ne_of_gt h1, ne_of_gt h2]
      · simp [centerEntry, h1, h2, pyDiv, ne_of_gt h1]
    · by_cases h2 : 0 < (match monthlyRowFor d c.id m y with | some r => r.revenue | none => 0)
      · simp [centerEntry, h1, h2, pyDiv, ne_of_gt h2]
      · simp [centerEntry, h1, h2]
  · by_cases h1 : 0 < analyticsTarget d y cf m
    · by_cases h2 : 0 < analyticsRevenue d y cf m
      · simp [analyticsEntry, h1, h2, pyDiv, ne_of_gt h1, ne_of_gt h2]
      · simp [analyticsEntry, h1, h2, pyDiv, ne_of_gt h1]
    · by_cases h2 : 0 < analyticsRevenue d y cf m
      · simp [analyticsEntry, h1, h2, pyDiv, ne_of_gt h2]
      · simp [analyticsEntry, h1, h2]
  · have h1 : ¬ 0 < analyticsTarget d y cf m := by simp [h0]
    by_cases h2 : 0 < analyticsRevenue d y cf m
    · simp [analyticsEntry, h1, h2, pyDiv, ne_of_gt h2]
    · simp [analyticsEntry, h1, h2]
  · have h2 : ¬ 0 < analyticsRevenue d y cf m := by simp [h0]
    by_cases h1 : 0 < analyticsTarget d y cf m
    · simp [analyticsEntry, h1, h2, pyDiv, ne_of_gt h1]
    · simp [analyticsEntry, h1, h2]
  · by_cases h1 : 0 < prev
    · simp [growthOf, h1, pyDiv, ne_of_gt h1]
    · simp [growthOf, h1]
  · by_cases h1 : 0 < selTgt
    · simp [avgAchievement, h1, pyDiv, ne_of_gt h1]
    · simp [avgAchievement, h1]
  · by_cases hn : 0 < n
    · have hq : (n : ℚ) ≠ 0 := by positivity
      simp [avgOverSelected, hn, pyDiv, hq]
    · simp [avgOverSelected, hn]

/-- Witness for C3 at an empty store (every total is 0). -/
theorem c3_witness :
    (kpiEntry ⟨[], [], [], [], []⟩ 2026 "January").map KpiEntry.achieved_percent = some 0 ∧
    (kpiEntry ⟨[], [], [], [], []⟩ 2026 "January").map KpiEntry.salary_percent = some 0 ∧
    (analyticsEntry ⟨[], [], [], [], []⟩ 2026 0 "January").map AnalyticsEntry.achieved = some 0 ∧
    (analyticsEntry ⟨[], [], [], [], []⟩ 2026 0 "January").map AnalyticsEntry.salary_ratio = some 0 ∧
    (growthOf 0 5).isSome = true := by
  have h := c3_division_guards ⟨[], [], [], [], []⟩ 2026 "January" ⟨1, "Center 1"⟩ 0 0 5 0 0 0 0
  exact ⟨h.2.1 rfl, h.2.2.1 rfl, h.2.2.2.2.2.2.1 rfl, h.2.2.2.2.2.2.2.1 rfl,
    h.2.2.2.2.2.2.2.2.1⟩

/-- Reading back the key just written into the attempt dict. -/
theorem AttemptMap.set_same (st : AttemptMap) (ip : String)
    (v : Option (Nat × Option ℚ)) : st.set ip v ip = v := by
  simp [AttemptMap.set]

/-- A failed login from an IP with no lockout set records one more attempt,
without a lockout while the count stays below 5. -/
theorem login_bad_below (t : ℚ) (st : AttemptMap) (ip : String) (a : Nat)
    (h : st ip = some (a, none) ∨ (st ip = none ∧ a = 0)) (ha : a + 1 < 5) :
    (login t .bad st ip).2 = st.set ip (some (a + 1, none)) := by
  rcases h with h | ⟨h, rfl⟩ <;>
    simp [login, is_locked_out, record_failed_attempt, h, MAX_LOGIN_ATTEMPTS,
      Nat.not_le.mpr ha]

/-- The failed login that reaches the threshold sets the lockout timestamp. -/
theorem login_bad_reaching (t : ℚ) (st : AttemptMap) (ip : String) (a : Nat)
    (h : st ip = some (a, none)) (ha : 5 ≤ a + 1) :
    (login t .bad st ip).2 = st.set ip (some (a + 1, some (t + LOCKOUT_TIME))) := by
  simp [login, is_locked_out, record_failed_attempt, h, MAX_LOGIN_ATTEMPTS, ha]

/-- **C2.** After 5 consecutive failed logins from one IP starting from a
clean state, any further attempt within the 5-minute lockout window is
rejected as locked out regardless of the submitted credentials (and the
attempt dict is unchanged); once the lockout timestamp has passed, an attempt
with correct credentials succeeds and clears the IP's entry. -/
theorem c2_lockout (st0 : AttemptMap) (ip : String) (hclean : st0 ip = none)
    (t1 t2 t3 t4 t5 t6 t7 : ℚ) (cred : Cred)
    (h6 : t6 < t5 + LOCKOUT_TIME) (h7 : t5 + LOCKOUT_TIME ≤ t7) :
    login t6 cred (failedRun [t1, t2, t3, t4, t5] st0 ip) ip
      = (.lockedOut, failedRun [t1, t2, t3, t4, t5] st0 ip) ∧
    (login t7 .good (failedRun [t1, t2, t3, t4, t5] st0 ip) ip).1 = .success ∧
    (login t7 .good (failedRun [t1, t2, t3, t4, t5] st0 ip) ip).2 ip = none := by
  have e1 := login_bad_below t1 st0 ip 0 (Or.inr ⟨hclean, rfl⟩) (by norm_num)
  have e2 := login_bad_below t2 ((login t1 .bad st0 ip).2) ip 1
    (Or.inl (by rw [e1]; simp [AttemptMap.set_same])) (by norm_num)
  have e3 := login_bad_below t3 ((login t2 .bad (login t1 .bad st0 ip).2 ip).2) ip 2
    (Or.inl (by rw [e2]; simp [AttemptMap.set_same])) (by norm_num)
  have e4 := login_bad_below t4
    ((login t3 .bad (login t2 .bad (login t1 .bad st0 ip).2 ip).2 ip).2) ip 3
    (Or.inl (by rw [e3]; simp [AttemptMap.set_same])) (by norm_num)
  have e5 := login_bad_reaching t5
    ((login t4 .bad (login t3 .bad (login t2 .bad
      (login t1 .bad st0 ip).2 ip).2 ip).2 ip).2) ip 4
    (by rw [e4]; simp [AttemptMap.set_same]) (by norm_num)
  have hrun : failedRun [t1, t2, t3, t4, t5] st0 ip ip
      = some (5, some (t5 + LOCKOUT_TIME)) := by
    show (login t5 .bad (login t4 .bad (login t3 .bad (login t2 .bad
      (login t1 .bad st0 ip).2 ip).2 ip).2 ip).2 ip).2 ip
      = some (5, some (t5 + LOCKOUT_TIME))
    rw [e5]
    simp [AttemptMap.set_same]
  refine ⟨?_, ?_, ?_⟩
  · simp [login, is_locked_out, hrun, h6]
  · simp [login, is_locked_out, hrun, not_lt.mpr h7]
  · simp [login, is_locked_out, hrun, not_lt.mpr h7, clear_attempts, AttemptMap.set]

/-- Witness for C2: five failed attempts at time 0, a rejected correct-
credential attempt at time 10, and a successful one at time 300. -/
theorem c2_witness :
    login 10 .good (failedRun [0, 0, 0, 0, 0] (fun _ => none) "10.0.0.1") "10.0.0.1"
      = (.lockedOut, failedRun [0, 0, 0, 0, 0] (fun _ => none) "10.0.0.1") ∧
    (login 300 .good (failedRun [0, 0, 0, 0, 0] (fun _ => none) "10.0.0.1") "10.0.0.1").1
      = .success ∧
    (login 300 .good (failedRun [0, 0, 0, 0, 0] (fun _ => none) "10.0.0.1") "10.0.0.1").2
      "10.0.0.1" = none := by
  have h := c2_lockout (fun _ => none) "10.0.0.1" rfl 0 0 0 0 0 10 300 .good
    (by norm_num [LOCKOUT_TIME]) (by norm_num [LOCKOUT_TIME])
  exact ⟨h.1, h.2.1, h.2.2⟩

/-- **C4 (code behaviour at the failing input).** A malformed numeric field
makes the salary upsert and the dashboard revenue/target save raise an
uncaught `ValueError` (modelled as `Except.error`, aborting the request
before `commit`, hence no store mutation) — it is not reported as a
user-input error; `sanitize_number`, which would implement the claimed
behaviour, returns the default instead of raising but is not used on these
paths. -/
theorem c4_malformed_numeric_input (d : DB) (cid : Nat) (m : String) (y : Int)
    (t : RawNum) (q : ℚ) :
    update_salary d cid m y .malformed = .error () ∧
    dashboard_save_center d cid m y .malformed t = .error () ∧
    dashboard_save_center d cid m y (.num q) .malformed = .error () ∧
    sanitize_number .malformed 0 = 0 :=
  ⟨rfl, rfl, rfl, rfl⟩

/-- Counterexample to C5 as stated: a salary upsert whose `coach_id` (7)
matches no `coaches` row does not leave the store unchanged — it inserts an
orphan `coach_salaries` row. -/
theorem c5_counterexample :
    update_salary ⟨[⟨1, "Center 1"⟩], [], [⟨1, "March", 2026, 0, 0⟩], [], []⟩
        7 "March" 2026 (.num 100)
      = .ok ⟨[⟨1, "Center 1"⟩], [], [⟨1, "March", 2026, 0, 0⟩],
          [⟨7, "March", 2026, 100⟩], []⟩ ∧
    (⟨[⟨1, "Center 1"⟩], [], [⟨1, "March", 2026, 0, 0⟩],
        [⟨7, "March", 2026, 100⟩], []⟩ : DB)
      ≠ ⟨[⟨1, "Center 1"⟩], [], [⟨1, "March", 2026, 0, 0⟩], [], []⟩ := by
  exact ⟨rfl, by decide⟩

/-- **C5 (amended).** Operations given a nonexistent id do not crash: a
salary upsert whose coach id matches no row succeeds without recomputing any
target, leaving every table unchanged except for inserting one orphan
`coach_salaries` row; deleting a coach id with no coach row and no salary
rows is a no-op; deleting a center id with no center row, no coaches and no
`monthly_data` rows is a no-op. -/
theorem c5_nonexistent_ids (d : DB) (cid : Nat) (m : String) (y : Int) (q : ℚ) :
    ((∀ c ∈ d.coaches, c.id ≠ cid) →
      (∀ s ∈ d.coach_salaries, ¬(s.coach_id = cid ∧ s.month = m ∧ s.year = y)) →
      update_salary d cid m y (.num q)
        = .ok {d with coach_salaries := d.coach_salaries ++ [⟨cid, m, y, q⟩]}) ∧
    ((∀ c ∈ d.coaches, c.id ≠ cid) → (∀ s ∈ d.coach_salaries, s.coach_id ≠ cid) →
      delete_coach d cid = d) ∧
    ((∀ c ∈ d.centers, c.id ≠ cid) → (∀ c ∈ d.coaches, c.center_id ≠ cid) →
      (∀ r ∈ d.monthly_data, r.center_id ≠ cid) →
      delete_center d cid = d) := by
  refine ⟨fun hco hsal => ?_, fun hco hsal => ?_, fun hce hco hmd => ?_⟩
  · have hrow : (d.coach_salaries.any fun s =>
        s.coach_id == cid && s.month == m && s.year == y) = false := by
      simp only [List.any_eq_false]
      intro s hs
      have := hsal s hs
      simp_all
    have hfilt : (d.coaches.filter fun c => c.id == cid) = [] := by
      simp only [List.filter_eq_nil_iff]
      intro c hc
      simp [hco c hc]
    simp [update_salary, hrow, hfilt, parseSalaryField]
  · cases d with
    | mk ce co md cs cl =>
      have h1 : (cs.filter fun s => !(s.coach_id == cid)) = cs := by
        rw [List.filter_eq_self]; intro a ha; simp_all
      have h2 : (co.filter fun c => !(c.id == cid)) = co := by
        rw [List.filter_eq_self]; intro a ha; simp_all
      simp [delete_coach, h1, h2]
  · cases d with
    | mk ce co md cs cl =>
      have hmd' : (md.filter fun r => !(r.center_id == cid)) = md := by
        rw [List.filter_eq_self]; intro a ha; simp_all
      have hco' : (co.filter fun c => !(c.center_id == cid)) = co := by
        rw [List.filter_eq_self]; intro a ha; simp_all
      have hce' : (ce.filter fun c => !(c.id == cid)) = ce := by
        rw [List.filter_eq_self]; intro a ha; simp_all
      have hcs' : (cs.filter fun s =>
          !(co.any fun c => c.id == s.coach_id && c.center_id == cid)) = cs := by
        rw [List.filter_eq_self]
        intro a ha
        simp only [Bool.not_eq_eq_eq_not, Bool.not_true, List.any_eq_false]
        intro c hc
        have := hco c hc
        simp_all
      simp [delete_center, hmd', hco', hce', hcs']

/-- Witness for C5: upsert for unknown coach 9 inserts an orphan row; deletes
of unknown coach/center ids are no-ops. -/
theorem c5_witness :
    update_salary ⟨[⟨1, "Center 1"⟩], [⟨1, 1, "A"⟩], [], [], []⟩ 9 "May" 2026 (.num 10)
      = .ok ⟨[⟨1, "Center 1"⟩], [⟨1, 1, "A"⟩], [], [⟨9, "May", 2026, 10⟩], []⟩ ∧
    delete_coach ⟨[⟨1, "Center 1"⟩], [⟨1, 1, "A"⟩], [], [], []⟩ 9
      = ⟨[⟨1, "Center 1"⟩], [⟨1, 1, "A"⟩], [], [], []⟩ ∧
    delete_center ⟨[⟨1, "Center 1"⟩], [⟨1, 1, "A"⟩], [], [], []⟩ 9
      = ⟨[⟨1, "Center 1"⟩], [⟨1, 1, "A"⟩], [], [], []⟩ := by
  have h := c5_nonexistent_ids ⟨[⟨1, "Center 1"⟩], [⟨1, 1, "A"⟩], [], [], []⟩ 9 "May" 2026 10
  exact ⟨h.1 (by decide) (by decide), h.2.1 (by decide) (by decide),
    h.2.2 (by decide) (by decide) (by decide)⟩

/-- **C6.** `delete_center` removes all of the center's `monthly_data` rows
(every month and year), all of its coaches, all `coach_salaries` rows of
those coaches, and the center row itself — and removes nothing else from
those four tables. -/
theorem c6_delete_center_cascades (d : DB) (cid : Nat) :
    (∀ r ∈ (delete_center d cid).monthly_data, r.center_id ≠ cid) ∧
    (∀ c ∈ (delete_center d cid).coaches, c.center_id ≠ cid) ∧
    (∀ s ∈ (delete_center d cid).coach_salaries, ∀ c ∈ d.coaches,
      c.center_id = cid → s.coach_id ≠ c.id) ∧
    (∀ c ∈ (delete_center d cid).centers, c.id ≠ cid) ∧
    (∀ r ∈ d.monthly_data, r.center_id ≠ cid → r ∈ (delete_center d cid).monthly_data) ∧
    (∀ c ∈ d.coaches, c.center_id ≠ cid → c ∈ (delete_center d cid).coaches) ∧
    (∀ s ∈ d.coach_salaries, (∀ c ∈ d.coaches, c.id = s.coach_id → c.center_id ≠ cid) →
      s ∈ (delete_center d cid).coach_salaries) ∧
    (∀ c ∈ d.centers, c.id ≠ cid → c ∈ (delete_center d cid).centers) := by
  refine ⟨?_, ?_, ?_, ?_, ?_, ?_, ?_, ?_⟩ <;>
    simp only [delete_center, List.mem_filter, Bool.not_eq_true', ← Bool.not_eq_true,
      Bool.and_eq_true, List.any_eq_true, beq_iff_eq, ne_eq] <;>
    intros <;> first
      | tauto
      | (push_neg at *; aesop)

/-- **C7.** `remove_center_month` deletes exactly the one month/year
`monthly_data` row of the center and that month/year's `coach_salaries` rows
of the center's coaches; the `centers`, `coaches` and `coach_leaves` tables
and every row of any other month or year are untouched. -/
theorem c7_remove_center_month_frame (d : DB) (cid : Nat) (m : String) (y : Int) :
    (remove_center_month d cid m y).centers = d.centers ∧
    (remove_center_month d cid m y).coaches = d.coaches ∧
    (remove_center_month d cid m y).coach_leaves = d.coach_leaves ∧
    (∀ r : MonthlyRow, r ∈ (remove_center_month d cid m y).monthly_data ↔
      r ∈ d.monthly_data ∧ ¬(r.center_id = cid ∧ r.month = m ∧ r.year = y)) ∧
    (∀ s : SalaryRow, s ∈ (remove_center_month d cid m y).coach_salaries ↔
      s ∈ d.coach_salaries ∧
        ¬((∃ c ∈ d.coaches, c.id = s.coach_id ∧ c.center_id = cid)
          ∧ s.month = m ∧ s.year = y)) := by
  refine ⟨rfl, rfl, rfl, fun r => ?_, fun s => ?_⟩ <;>
    simp only [remove_center_month, List.mem_filter, Bool.not_eq_true', ← Bool.not_eq_true,
      Bool.and_eq_true, List.any_eq_true, beq_iff_eq, ne_eq] <;>
    first
      | tauto
      | (constructor <;> intros <;> first
          | tauto
          | (push_neg at *; aesop))

/-- **C10.** Deleting a center leaves the `coach_leaves` table untouched:
every leave row survives, including those of the deleted center's coaches,
which become orphans — no remaining coach of the deleted center can match
them, since all of that center's coaches are removed. -/
theorem c10_delete_center_orphans_leaves (d : DB) (cid : Nat) :
    (delete_center d cid).coach_leaves = d.coach_leaves ∧
    (∀ c ∈ (delete_center d cid).coaches, c.center_id ≠ cid) ∧
    (∀ l ∈ d.coach_leaves, ∀ c ∈ d.coaches, c.id = l.coach_id → c.center_id = cid →
      (l ∈ (delete_center d cid).coach_leaves ∧
        ∀ c' ∈ (delete_center d cid).coaches, c'.id = l.coach_id → c'.center_id ≠ cid)) := by
  refine ⟨rfl, ?_, ?_⟩
  · intro c hc
    simp only [delete_center, List.mem_filter, Bool.not_eq_eq_eq_not, Bool.not_true,
      beq_eq_false_iff_ne, ne_eq] at hc
    exact hc.2
  · intro l hl c hc hid hcen
    refine ⟨hl, fun c' hc' _ => ?_⟩
    simp only [delete_center, List.mem_filter, Bool.not_eq_eq_eq_not, Bool.not_true,
      beq_eq_false_iff_ne, ne_eq] at hc'
    exact hc'.2

/-- Witness for C6: in the two-center store, deleting center 1 keeps center
2's rows. -/
theorem c6_witness :
    (⟨2, "March", 2026, 30, 40⟩ : MonthlyRow) ∈ (delete_center twoCenterDB 1).monthly_data ∧
    (⟨2, 2, "B"⟩ : CoachRow) ∈ (delete_center twoCenterDB 1).coaches ∧
    (⟨2, "March", 2026, 6⟩ : SalaryRow) ∈ (delete_center twoCenterDB 1).coach_salaries ∧
    (⟨2, "C2"⟩ : CenterRow) ∈ (delete_center twoCenterDB 1).centers := by
  have h := c6_delete_center_cascades twoCenterDB 1
  exact ⟨h.2.2.2.2.1 _ (by decide) (by decide),
    h.2.2.2.2.2.1 _ (by decide) (by decide),
    h.2.2.2.2.2.2.1 _ (by decide) (by decide),
    h.2.2.2.2.2.2.2 _ (by decide) (by decide)⟩

/-- Witness for C10: coach 1's leave row survives the deletion of center 1. -/
theorem c10_witness :
    (⟨1, 1, ⟨2026, 1, 10⟩, ⟨2026, 1, 12⟩, "Casual", 2026⟩ : LeaveRow)
      ∈ (delete_center leaveDB 1).coach_leaves :=
  ((c10_delete_center_orphans_leaves leaveDB 1).2.2 _ (by decide) ⟨1, 1, "A"⟩
    (by decide) rfl rfl).1

/-- One recompute iteration never touches any table except `monthly_data`. -/
theorem targetStep_frame (cid : Nat) (y : Int) (d : DB) (m : String) :
    (targetStep cid y d m).centers = d.centers ∧
    (targetStep cid y d m).coaches = d.coaches ∧
    (targetStep cid y d m).coach_salaries = d.coach_salaries ∧
    (targetStep cid y d m).coach_leaves = d.coach_leaves := by
  by_cases h : 0 < calcTarget d.coaches d.coach_salaries cid m y <;> simp [targetStep, h]

/-- `monthly_data` after one recompute iteration. -/
theorem targetStep_md (cid : Nat) (y : Int) (d : DB) (m : String) :
    (targetStep cid y d m).monthly_data =
      if 0 < calcTarget d.coaches d.coach_salaries cid m y
      then d.monthly_data.map
        (setTarget cid m y (calcTarget d.coaches d.coach_salaries cid m y))
      else d.monthly_data := by
  by_cases h : 0 < calcTarget d.coaches d.coach_salaries cid m y <;> simp [targetStep, h]

/-- Updating month `m` and then the months of `ms` equals updating the months
of `m :: ms`, pointwise on a row, when `m`'s computed target is positive. -/
theorem monthMarkedRow_step_pos (co : List CoachRow) (sa : List SalaryRow)
    (cid : Nat) (y : Int) (m : String) (ms : List String) (r : MonthlyRow)
    (hct : 0 < calcTarget co sa cid m y) :
    monthMarkedRow co sa cid y ms (setTarget cid m y (calcTarget co sa cid m y) r)
      = monthMarkedRow co sa cid y (m :: ms) r := by
  by_cases h1 : r.center_id = cid
  · by_cases h3 : r.year = y
    · by_cases h2 : r.month = m
      · subst h2
        by_cases hmem : r.month ∈ ms <;>
          simp [setTarget, monthMarkedRow, h1, h3, hct, hmem]
      · by_cases hmem : r.month ∈ ms <;>
          simp [setTarget, monthMarkedRow, h1, h3, h2, hmem]
    · simp [setTarget, monthMarkedRow, h3]
  · simp [setTarget, monthMarkedRow, h1]

/-- Skipping month `m` (its computed target is not positive) still equals
updating the months of `m :: ms`, pointwise on a row. -/
theorem monthMarkedRow_step_neg (co : List CoachRow) (sa : List SalaryRow)
    (cid : Nat) (y : Int) (m : String) (ms : List String) (r : MonthlyRow)
    (hct : ¬ 0 < calcTarget co sa cid m y) :
    monthMarkedRow co sa cid y ms r = monthMarkedRow co sa cid y (m :: ms) r := by
  by_cases h2 : r.month = m
  · subst h2
    simp [monthMarkedRow, hct]
  · simp [monthMarkedRow, List.mem_cons, h2]

/-- Characterization of the per-month recompute loop over any month list. -/
theorem foldl_targetStep_spec (cid : Nat) (y : Int) (co : List CoachRow)
    (sa : List SalaryRow) :
    ∀ (ms : List String) (d : DB), d.coaches = co → d.coach_salaries = sa →
      (ms.foldl (targetStep cid y) d).centers = d.centers ∧
      (ms.foldl (targetStep cid y) d).coaches = co ∧
      (ms.foldl (targetStep cid y) d).coach_salaries = sa ∧
      (ms.foldl (targetStep cid y) d).coach_leaves = d.coach_leaves ∧
      (ms.foldl (targetStep cid y) d).monthly_data =
        d.monthly_data.map (monthMarkedRow co sa cid y ms) := by
  intro ms
  induction ms with
  | nil =>
    intro d _ _
    refine ⟨rfl, by assumption, by assumption, rfl, ?_⟩
    have hid : ∀ l : List MonthlyRow, l.map (monthMarkedRow co sa cid y []) = l := by
      intro l
      induction l with
      | nil => rfl
      | cons a l ihl => simp [monthMarkedRow, ihl]
    exact (hid d.monthly_data).symm
  | cons m ms ih =>
    intro d hco hsa
    obtain ⟨f1, f2, f3, f4⟩ := targetStep_frame cid y d m
    obtain ⟨g1, g2, g3, g4, g5⟩ := ih (targetStep cid y d m)
      (f2.trans hco) (f3.trans hsa)
    refine ⟨g1.trans f1, g2, g3, g4.trans f4, ?_⟩
    rw [List.foldl_cons, g5, targetStep_md, hco, hsa]
    by_cases hct : 0 < calcTarget co sa cid m y
    · rw [if_pos hct, List.map_map]
      exact List.map_congr_left fun r _ => monthMarkedRow_step_pos co sa cid y m ms r hct
    · rw [if_neg hct]
      exact List.map_congr_left fun r _ => monthMarkedRow_step_neg co sa cid y m ms r hct

/-- Characterization of `_update_center_targets`: every table except
`monthly_data` is unchanged, and `monthly_data` is mapped row-by-row through
`recomputedRow` (no insertion, no deletion). -/
theorem updateCenterTargets_spec (d : DB) (cid : Nat) (y : Int) :
    (updateCenterTargets d cid y).centers = d.centers ∧
    (updateCenterTargets d cid y).coaches = d.coaches ∧
    (updateCenterTargets d cid y).coach_salaries = d.coach_salaries ∧
    (updateCenterTargets d cid y).coach_leaves = d.coach_leaves ∧
    (updateCenterTargets d cid y).monthly_data =
      d.monthly_data.map (recomputedRow d.coaches d.coach_salaries cid y) := by
  obtain ⟨h1, h2, h3, h4, h5⟩ := foldl_targetStep_spec cid y d.coaches d.coach_salaries
    (existingMonths d.monthly_data cid y) d rfl rfl
  refine ⟨h1, h2, h3, h4, ?_⟩
  rw [show updateCenterTargets d cid y
      = (existingMonths d.monthly_data cid y).foldl (targetStep cid y) d from rfl, h5]
  refine List.map_congr_left fun r hr => ?_
  by_cases hc : r.center_id = cid
  · by_cases hy : r.year = y
    · have hmem : r.month ∈ existingMonths d.monthly_data cid y := by
        simp only [existingMonths, List.mem_dedup, List.mem_map]
        exact ⟨r, List.mem_filter.mpr ⟨hr, by simp [hc, hy]⟩, rfl⟩
      simp [monthMarkedRow, recomputedRow, hc, hy, hmem]
    · simp [monthMarkedRow, recomputedRow, hy]
  · simp [monthMarkedRow, recomputedRow, hc]

/-- Recomputing center `c` and then the centers of `cs` equals recomputing
the centers of `c :: cs`, pointwise on a row. -/
theorem centersMarkedRow_step (co : List CoachRow) (sa : List SalaryRow) (y : Int)
    (c : CenterRow) (cs : List CenterRow) (r : MonthlyRow) :
    centersMarkedRow co sa y cs (recomputedRow co sa c.id y r)
      = centersMarkedRow co sa y (c :: cs) r := by
  by_cases hcen : r.center_id = c.id
  · by_cases hy : r.year = y
    · by_cases hq : 0 < calcTarget co sa c.id r.month y
      · by_cases hmem : ∃ c' ∈ cs, c'.id = c.id <;>
          simp [recomputedRow, centersMarkedRow, hcen, hy, hq, hmem]
      · simp [recomputedRow, centersMarkedRow, hcen, hy, hq]
    · simp [recomputedRow, centersMarkedRow, hy]
  · simp [recomputedRow, centersMarkedRow, hcen, Ne.symm hcen]

/-- Characterization of the dashboard read-path loop over any center list. -/
theorem foldl_centers_spec (y : Int) (co : List CoachRow) (sa : List SalaryRow) :
    ∀ (cs : List CenterRow) (d : DB), d.coaches = co → d.coach_salaries = sa →
      (cs.foldl (fun acc c => updateCenterTargets acc c.id y) d).centers = d.centers ∧
      (cs.foldl (fun acc c => updateCenterTargets acc c.id y) d).coaches = co ∧
      (cs.foldl (fun acc c => updateCenterTargets acc c.id y) d).coach_salaries = sa ∧
      (cs.foldl (fun acc c => updateCenterTargets acc c.id y) d).coach_leaves
        = d.coach_leaves ∧
      (cs.foldl (fun acc c => updateCenterTargets acc c.id y) d).monthly_data =
        d.monthly_data.map (centersMarkedRow co sa y cs) := by
  intro cs
  induction cs with
  | nil =>
    intro d _ _
    refine ⟨rfl, by assumption, by assumption, rfl, ?_⟩
    have hid : ∀ l : List MonthlyRow, l.map (centersMarkedRow co sa y []) = l := by
      intro l
      induction l with
      | nil => rfl
      | cons a l ihl => simp [centersMarkedRow, ihl]
    exact (hid d.monthly_data).symm
  | cons c cs ih =>
    intro d hco hsa
    obtain ⟨f1, f2, f3, f4, f5⟩ := updateCenterTargets_spec d c.id y
    obtain ⟨g1, g2, g3, g4, g5⟩ := ih (updateCenterTargets d c.id y)
      (f2.trans hco) (f3.trans hsa)
    refine ⟨g1.trans f1, g2, g3, g4.trans f4, ?_⟩
    rw [List.foldl_cons, g5, f5, hco, hsa, List.map_map]
    exact List.map_congr_left fun r _ => centersMarkedRow_step co sa y c cs r

/-- Characterization of the write-back of `_calculate_centers_data`: every
table except `monthly_data` is unchanged, and `monthly_data` is mapped
row-by-row through `recomputedRowAll`. -/
theorem centersDataRecompute_spec (d : DB) (m : String) (y : Int) :
    (centersDataRecompute d m y).centers = d.centers ∧
    (centersDataRecompute d m y).coaches = d.coaches ∧
    (centersDataRecompute d m y).coach_salaries = d.coach_salaries ∧
    (centersDataRecompute d m y).coach_leaves = d.coach_leaves ∧
    (centersDataRecompute d m y).monthly_data
      = d.monthly_data.map (recomputedRowAll d m y) :=
  foldl_centers_spec y d.coaches d.coach_salaries (centersInMonth d m y) d rfl rfl

/-- **C1 (amended).** Both recompute paths — `_update_center_targets` after a
salary upsert, and the `_calculate_centers_data` read path — transform
`monthly_data` row-by-row: a row of the selected center(s) and year whose
computed `round(total_salary/0.299, 2)` is positive gets exactly that target,
and every other row, every non-target field, and every other table is
unchanged; in particular no `monthly_data` row is ever inserted (the row
count is preserved), and months whose salary total is zero, negative, or so
small that the rounded target is 0 keep their previous target. -/
theorem c1_target_recompute (d : DB) (cid : Nat) (y : Int) (m : String) :
    ((updateCenterTargets d cid y).centers = d.centers ∧
     (updateCenterTargets d cid y).coaches = d.coaches ∧
     (updateCenterTargets d cid y).coach_salaries = d.coach_salaries ∧
     (updateCenterTargets d cid y).coach_leaves = d.coach_leaves ∧
     (updateCenterTargets d cid y).monthly_data
       = d.monthly_data.map (recomputedRow d.coaches d.coach_salaries cid y) ∧
     (updateCenterTargets d cid y).monthly_data.length = d.monthly_data.length) ∧
    ((centersDataRecompute d m y).centers = d.centers ∧
     (centersDataRecompute d m y).coaches = d.coaches ∧
     (centersDataRecompute d m y).coach_salaries = d.coach_salaries ∧
     (centersDataRecompute d m y).coach_leaves = d.coach_leaves ∧
     (centersDataRecompute d m y).monthly_data
       = d.monthly_data.map (recomputedRowAll d m y) ∧
     (centersDataRecompute d m y).monthly_data.length = d.monthly_data.length) := by
  obtain ⟨a1, a2, a3, a4, a5⟩ := updateCenterTargets_spec d cid y
  obtain ⟨b1, b2, b3, b4, b5⟩ := centersDataRecompute_spec d m y
  exact ⟨⟨a1, a2, a3, a4, a5, by rw [a5, List.length_map]⟩,
    ⟨b1, b2, b3, b4, b5, by rw [b5, List.length_map]⟩⟩

/-- `round(0, 2) = 0`. -/
theorem round2_zero : round2 0 = 0 := by
  norm_num [round2, roundHalfEven]

/-- Counterexample to C1 as stated: in `cexDB` a `coach_salaries` row exists
for center 1 / March / 2026 (with salary 0), yet after either recompute path
the March target is still 500, while `round(total_salary/0.299, 2) = 0`. -/
theorem c1_counterexample :
    cexDB.coach_salaries = [⟨1, "March", 2026, 0⟩] ∧
    cexDB.coaches = [⟨1, 1, "A"⟩] ∧
    (updateCenterTargets cexDB 1 2026).monthly_data = [⟨1, "March", 2026, 0, 500⟩] ∧
    (centersDataRecompute cexDB "March" 2026).monthly_data
      = [⟨1, "March", 2026, 0, 500⟩] ∧
    round2 (centerSalaryTotal cexDB.coaches cexDB.coach_salaries 1 "March" 2026
      / (299/1000)) = 0 ∧
    (500 : ℚ) ≠ 0 := by
  have htot : centerSalaryTotal [⟨1, 1, "A"⟩] [⟨1, "March", 2026, 0⟩] 1 "March" 2026
      = 0 := by
    norm_num [centerSalaryTotal]
  refine ⟨rfl, rfl, ?_, ?_, ?_, by norm_num⟩
  · obtain ⟨-, -, -, -, h5⟩ := updateCenterTargets_spec cexDB 1 2026
    rw [h5]
    simp [recomputedRow, calcTarget, htot, cexDB]
  · obtain ⟨-, -, -, -, h5⟩ := centersDataRecompute_spec cexDB "March" 2026
    rw [h5]
    simp [recomputedRowAll, centersMarkedRow, calcTarget, htot, cexDB]
  · show round2 (centerSalaryTotal [⟨1, 1, "A"⟩] [⟨1, "March", 2026, 0⟩] 1 "March" 2026
      / (299/1000)) = 0
    rw [htot, zero_div, round2_zero]

end Academy
